import Mathlib

/-!
Verification of the bus-bell acoustic detection system: a shallow embedding
of the live detection loop (`Model/Live-detection.py`), the training-time
feature extraction (`Model/model.py`) and the HTTP upload endpoint
(`main.py`), together with theorems settling the specified properties.

Floating-point sample and coefficient values are embedded as rationals;
machine `int16` samples are embedded as integers with explicit range facts.
External library transforms (librosa's MFCC, Keras inference, the PyAudio
blocking read) are either kept abstract as function parameters passed to the
embedded code, or modelled from the specification where the claim is about
their contract; each such modelling is flagged in its doc comment.
-/

/-- `class_names = ["background", "bell"]` from `Live-detection.py` line 7. -/
def class_names : List String := ["background", "bell"]

/-- `SAMPLE_RATE = 22050` from `Live-detection.py` line 10. -/
def SAMPLE_RATE : ℕ := 22050

/-- `DURATION = 1.0` (seconds) from `Live-detection.py` line 11. -/
def DURATION : ℚ := 1

/-- `SAMPLES_PER_CHUNK = int(SAMPLE_RATE * DURATION)` from `Live-detection.py`
line 12; Python `int` truncation of a nonnegative value is the floor. -/
def SAMPLES_PER_CHUNK : ℕ := (⌊(SAMPLE_RATE : ℚ) * DURATION⌋).toNat

/-- `np.argmax`: index of the first occurrence of the maximum value of the
vector (0 on the empty vector, which NumPy instead rejects). -/
def np_argmax : List ℚ → ℕ
  | [] => 0
  | [_] => 0
  | x :: xs =>
      let j := np_argmax xs
      if x < xs.getD j 0 then j + 1 else 0

/-- The per-cycle decision of `Live-detection.py` lines 46-49:
`class_idx = np.argmax(prediction)`, `confidence = prediction[0][class_idx]`,
trigger when `class_names[class_idx] == "bell" and confidence > 0.9`.
`prediction` has a single-item batch dimension, so the flat argmax and the
`prediction[0]` lookup both address the inner probability vector, embedded
here directly as that inner vector. -/
def bell_detected (prediction : List ℚ) : Bool :=
  let class_idx := np_argmax prediction
  let confidence := prediction.getD class_idx 0
  (class_names.getD class_idx "" == "bell") && decide ((9 : ℚ)/10 < confidence)

/-- Written from the spec's words (§4.4 decision rule), for comparison with
the source's `bell_detected`: let `(label, confidence) = argmax(probs)`;
emit iff `label` equals the configured target class and
`confidence > threshold`. -/
def specDecisionRule (target : String) (threshold : ℚ) (probs : List ℚ) : Prop :=
  class_names.getD (np_argmax probs) "" = target ∧
    threshold < probs.getD (np_argmax probs) 0

/-- One iteration of the `while True` loop of `Live-detection.py` lines 38-50,
classified by how it ends: a completed read-process-predict cycle carrying the
prediction vector, an exception from `stream.read`, from `process_audio`, or
from `model.predict`, or a `KeyboardInterrupt` delivered during the cycle. -/
inductive CycleInput
  | read (prediction : List ℚ)
  | readError
  | featureError
  | shapeError
  | interrupt
deriving DecidableEq

/-- Observable state of the detection process: detections printed (their
confidences, in order), completed cycles, whether `stream.stop_stream()`,
`stream.close()`, `p.terminate()` and the final `"Stopped"` print ran, and
whether the process died on an uncaught exception. -/
structure LoopState where
  emitted : List ℚ
  cyclesCompleted : ℕ
  streamStopped : Bool
  streamClosed : Bool
  paTerminated : Bool
  printedStopped : Bool
  crashed : Bool
deriving DecidableEq

/-- State when the loop is entered (`Live-detection.py` line 37). -/
def initState : LoopState :=
  ⟨[], 0, false, false, false, false, false⟩

/-- The `try: while True: ... except KeyboardInterrupt:` block of
`Live-detection.py` lines 37-55, run over a finite schedule of cycle
outcomes. A completed cycle prints a detection exactly when the lines 46-49
decision fires; `KeyboardInterrupt` is the only exception the `except` clause
matches, and its handler stops and closes the stream, terminates PyAudio and
prints `"Stopped"`; any other exception propagates out of the `try` uncaught,
ending the process with no cleanup. Either way no later cycle runs. -/
def runLoop : List CycleInput → LoopState → LoopState
  | [], s => s
  | CycleInput.read prediction :: rest, s =>
      runLoop rest
        { s with
          cyclesCompleted := s.cyclesCompleted + 1,
          emitted := s.emitted ++
            (if bell_detected prediction then
              [prediction.getD (np_argmax prediction) 0] else []) }
  | CycleInput.readError :: _, s => { s with crashed := true }
  | CycleInput.featureError :: _, s => { s with crashed := true }
  | CycleInput.shapeError :: _, s => { s with crashed := true }
  | CycleInput.interrupt :: _, s =>
      { s with
        streamStopped := true, streamClosed := true,
        paTerminated := true, printedStopped := true }

theorem bell_detected_iff (prediction : List ℚ) :
    bell_detected prediction = true ↔
      specDecisionRule "bell" (9/10) prediction := by
  simp [bell_detected, specDecisionRule]

/-- Claim C1: in a detection cycle with prediction vector `p`, a detection is
emitted iff the argmax label equals the target class `"bell"` and the argmax
confidence strictly exceeds the threshold 9/10; concretely, with the target
class at the argmax, confidence 19/20 (0.95) emits one event and 17/20 (0.85)
emits none. -/
theorem C1_decision_rule :
    (∀ prediction : List ℚ,
        (runLoop [CycleInput.read prediction] initState).emitted ≠ [] ↔
          specDecisionRule "bell" (9/10) prediction) ∧
      (runLoop [CycleInput.read [1/20, 19/20]] initState).emitted = [19/20] ∧
      (runLoop [CycleInput.read [3/20, 17/20]] initState).emitted = [] := by
  refine ⟨fun prediction => ?_, ?_, ?_⟩
  · rw [← bell_detected_iff]
    simp [runLoop, initState]
  · simp [runLoop, initState, bell_detected, np_argmax, class_names]
    norm_num
  · simp [runLoop, initState, bell_detected, np_argmax, class_names]
    norm_num

/-- Claim C4, counterexample: the claim says a `FeatureExtractionError` is
logged and the loop continues with the next chunk; on the code, after a cycle
that raises it, a following good chunk (a clear bell at confidence 19/20) is
never processed — no cycle completes, nothing is emitted, and the process
dies on the uncaught exception, since the `except` clause matches only
`KeyboardInterrupt`. -/
theorem C4_counterexample :
    (runLoop [CycleInput.featureError, CycleInput.read [1/20, 19/20]]
        initState).cyclesCompleted = 0 ∧
      (runLoop [CycleInput.featureError, CycleInput.read [1/20, 19/20]]
        initState).emitted = [] ∧
      (runLoop [CycleInput.featureError, CycleInput.read [1/20, 19/20]]
        initState).crashed = true := by
  refine ⟨rfl, rfl, rfl⟩

/-- Claim C4, amended: a `FeatureExtractionError` or `ShapeMismatchError`
raised in a cycle propagates uncaught (the `except` clause matches only
`KeyboardInterrupt`), so the loop terminates at once: the process is marked
crashed, the state is otherwise untouched, and no scheduled later chunk is
ever processed (the result does not depend on the rest of the schedule). -/
theorem C4_error_terminates_loop (rest : List CycleInput) (s : LoopState) :
    runLoop (CycleInput.featureError :: rest) s = { s with crashed := true } ∧
      runLoop (CycleInput.shapeError :: rest) s = { s with crashed := true } := by
  exact ⟨rfl, rfl⟩

/-- Claim C6, counterexample: the claim says the stream is stopped and closed
and the device released on every exit path, including failure of `readChunk`,
feature extraction or predict; on the code, an exit caused by a failing
`stream.read` (equally `process_audio` or `model.predict`) runs no cleanup at
all: the stream is neither stopped nor closed, PyAudio is not terminated, and
the terminal `"Stopped"` state is never reached. -/
theorem C6_counterexample :
    (runLoop [CycleInput.readError] initState).streamStopped = false ∧
      (runLoop [CycleInput.readError] initState).streamClosed = false ∧
      (runLoop [CycleInput.readError] initState).paTerminated = false ∧
      (runLoop [CycleInput.readError] initState).printedStopped = false := by
  refine ⟨rfl, rfl, rfl, rfl⟩

/-- Claim C6, amended: only the `KeyboardInterrupt` exit path stops and
closes the stream, terminates PyAudio and reaches the terminal `Stopped`
state, with no further cycles executed afterward (the result does not depend
on the rest of the schedule and the completed-cycle count is unchanged);
an exit via a `stream.read`, `process_audio` or `model.predict` failure
terminates the loop without releasing the stream. -/
theorem C6_cleanup_only_on_interrupt (rest : List CycleInput) (s : LoopState) :
    ((runLoop (CycleInput.interrupt :: rest) s).streamStopped = true ∧
        (runLoop (CycleInput.interrupt :: rest) s).streamClosed = true ∧
        (runLoop (CycleInput.interrupt :: rest) s).paTerminated = true ∧
        (runLoop (CycleInput.interrupt :: rest) s).printedStopped = true ∧
        (runLoop (CycleInput.interrupt :: rest) s).cyclesCompleted =
          s.cyclesCompleted ∧
        runLoop (CycleInput.interrupt :: rest) s = runLoop [CycleInput.interrupt] s) ∧
      (runLoop (CycleInput.readError :: rest) s).streamClosed = s.streamClosed ∧
      (runLoop (CycleInput.featureError :: rest) s).streamClosed = s.streamClosed ∧
      (runLoop (CycleInput.shapeError :: rest) s).streamClosed = s.streamClosed := by
  exact ⟨⟨rfl, rfl, rfl, rfl, rfl, rfl⟩, rfl, rfl, rfl⟩

/-- The `audio_data.astype(np.float32) / 32768.0` normalization of one `int16`
sample (`Live-detection.py` line 17), values embedded as rationals. -/
def normalizeSample (s : ℤ) : ℚ := (s : ℚ) / 32768

/-- An MFCC transform as called by both scripts: arguments are the signal `y`
and the keyword arguments `sr`, `n_mfcc`, `n_fft`, `hop_length`, result a
coefficient-major matrix (`n_mfcc` rows, one column per frame). Kept abstract:
`librosa.feature.mfcc` is external library code; both call sites pass it
explicitly below. -/
def MfccFun : Type :=
  List ℚ → ℕ → ℕ → ℕ → ℕ → List (List ℚ)

/-- NumPy's `.T` on a rectangular 2-D array: column `j` of the input becomes
row `j` of the output. -/
def npTranspose (m : List (List ℚ)) : List (List ℚ) :=
  (List.range (m.headD []).length).map (fun j => m.map (fun row => row.getD j 0))

/-- `process_audio` from `Live-detection.py` lines 14-26: scale the raw
`int16` samples by 32768.0, take MFCCs with `sr=SAMPLE_RATE`, `n_mfcc=13`,
`n_fft=2048`, `hop_length=512`, and return the transpose (time-major). -/
def process_audio (mfcc : MfccFun) (audio_data : List ℤ) : List (List ℚ) :=
  npTranspose (mfcc (audio_data.map normalizeSample) SAMPLE_RATE 13 2048 512)

/-- The pad/trim of `model.py` lines 12-15: if `len(audio) < sr * duration`,
zero-pad at the end to `int(sr * duration)` samples, else truncate to the
first `int(sr * duration)` samples. -/
def padTrim (audio : List ℚ) (duration : ℚ) (sr : ℕ) : List ℚ :=
  if (audio.length : ℚ) < (sr : ℚ) * duration then
    audio ++ List.replicate ((⌊(sr : ℚ) * duration⌋).toNat - audio.length) 0
  else
    audio.take (⌊(sr : ℚ) * duration⌋).toNat

/-- `extract_features` from `model.py` lines 8-24: pad/trim the audio to the
exact duration, take MFCCs with `n_mfcc=13`, `n_fft=2048`, `hop_length=512`,
and return the transpose (time steps first). Modelled from the spec:
`librosa.load(file_path, sr=sr, duration=duration)` is external library code;
its result — the decoded float signal of the underlying audio, normalized to
[-1, 1] and resampled to `sr` — is taken here directly as the input `audio`. -/
def extract_features (mfcc : MfccFun) (audio : List ℚ)
    (duration : ℚ := 1) (sr : ℕ := 22050) : List (List ℚ) :=
  npTranspose (mfcc (padTrim audio duration sr) sr 13 2048 512)

/-- Modelled from the spec: the centered-framing convention used at training
time (librosa's default `center=True`), under which the MFCC matrix has
`n_mfcc` rows and `1 + ⌊len(y) / hop_length⌋` frames per row. -/
def CenteredShapeLaw (mfcc : MfccFun) : Prop :=
  ∀ (y : List ℚ) (sr n_mfcc n_fft hop : ℕ),
    (mfcc y sr n_mfcc n_fft hop).length = n_mfcc ∧
      ∀ row ∈ mfcc y sr n_mfcc n_fft hop, row.length = 1 + y.length / hop

/-- A concrete MFCC transform with the centered-framing shape (all
coefficients zero), used to evaluate the shape theorems on concrete inputs. -/
def mfccStub : MfccFun :=
  fun y _ n_mfcc _ hop => List.replicate n_mfcc (List.replicate (1 + y.length / hop) 0)

theorem mfccStub_lawful : CenteredShapeLaw mfccStub := by
  intro y sr n_mfcc n_fft hop
  constructor
  · simp [mfccStub]
  · intro row hrow
    simp [mfccStub] at hrow
    rcases hrow with ⟨-, rfl⟩
    simp

theorem npTranspose_shape (m : List (List ℚ)) :
    (npTranspose m).length = (m.headD []).length ∧
      ∀ row ∈ npTranspose m, row.length = m.length := by
  constructor
  · simp [npTranspose]
  · intro row hrow
    simp [npTranspose] at hrow
    rcases hrow with ⟨j, -, rfl⟩
    simp

theorem lawful_transpose_shape (mfcc : MfccFun) (hlaw : CenteredShapeLaw mfcc)
    (y : List ℚ) (sr n_fft hop : ℕ) :
    (npTranspose (mfcc y sr 13 n_fft hop)).length = 1 + y.length / hop ∧
      ∀ row ∈ npTranspose (mfcc y sr 13 n_fft hop), row.length = 13 := by
  obtain ⟨hlen, hrows⟩ := hlaw y sr 13 n_fft hop
  obtain ⟨htlen, htrows⟩ := npTranspose_shape (mfcc y sr 13 n_fft hop)
  constructor
  · rw [htlen]
    cases hm : mfcc y sr 13 n_fft hop with
    | nil => rw [hm] at hlen; simp at hlen
    | cons a t =>
        have ha : a ∈ mfcc y sr 13 n_fft hop := by rw [hm]; exact List.mem_cons_self a t
        simp [hm, hrows a ha]
  · intro row hrow
    rw [htrows row hrow, hlen]

theorem floor_rate_duration : (⌊((22050 : ℕ) : ℚ) * 1⌋).toNat = 22050 := by
  norm_num
  rfl

theorem padTrim_exact (audio : List ℚ) (h : audio.length = 22050) :
    padTrim audio 1 22050 = audio := by
  unfold padTrim
  rw [if_neg, floor_rate_duration, ← h, List.take_length]
  rw [h]
  norm_num

/-- Claim C2: the live feature extractor is bit-for-bit the training-time
transform: for every MFCC transform (the same library function is used by
both scripts, with the same `sr=22050`, `n_mfcc=13`, `n_fft=2048`,
`hop_length=512` arguments) and every chunk of exactly the expected 22050
samples, `process_audio` on the `int16` samples equals `extract_features`
applied to the same underlying audio, i.e. to the normalized (divided by
32768.0) float signal. -/
theorem C2_live_equals_training (mfcc : MfccFun) (samples : List ℤ)
    (h : samples.length = 22050) :
    process_audio mfcc samples =
      extract_features mfcc (samples.map normalizeSample) 1 22050 := by
  unfold process_audio extract_features
  rw [padTrim_exact]
  · rfl
  · rw [List.length_map, h]

/-- Claim C2, witness: a concrete 22050-sample chunk has the expected length
and satisfies the live/training equality at a concrete MFCC transform. -/
theorem C2_witness :
    (List.replicate 22050 (0 : ℤ)).length = 22050 ∧
      process_audio mfccStub (List.replicate 22050 (0 : ℤ)) =
        extract_features mfccStub
          ((List.replicate 22050 (0 : ℤ)).map normalizeSample) 1 22050 :=
  ⟨by rw [List.length_replicate],
    C2_live_equals_training mfccStub (List.replicate 22050 (0 : ℤ))
      (by rw [List.length_replicate])⟩

theorem padTrim_short (audio : List ℚ) (h : audio.length < 22050) :
    padTrim audio 1 22050 = audio ++ List.replicate (22050 - audio.length) 0 := by
  unfold padTrim
  rw [floor_rate_duration, if_pos]
  exact_mod_cast h

theorem padTrim_long (audio : List ℚ) (h : 22050 ≤ audio.length) :
    padTrim audio 1 22050 = audio.take 22050 := by
  unfold padTrim
  rw [floor_rate_duration, if_neg]
  intro hc
  have : audio.length < 22050 := by exact_mod_cast hc
  omega

theorem padTrim_length (audio : List ℚ) : (padTrim audio 1 22050).length = 22050 := by
  rcases lt_or_le audio.length 22050 with h | h
  · rw [padTrim_short audio h, List.length_append, List.length_replicate]
    omega
  · rw [padTrim_long audio h, List.length_take]
    omega

theorem extract_features_shape (mfcc : MfccFun) (hlaw : CenteredShapeLaw mfcc)
    (audio : List ℚ) :
    (extract_features mfcc audio 1 22050).length = 44 ∧
      ∀ row ∈ extract_features mfcc audio 1 22050, row.length = 13 := by
  obtain ⟨h1, h2⟩ :=
    lawful_transpose_shape mfcc hlaw (padTrim audio 1 22050) 22050 2048 512
  constructor
  · show (npTranspose (mfcc (padTrim audio 1 22050) 22050 13 2048 512)).length = 44
    rw [h1, padTrim_length]
  · exact h2

theorem process_audio_length (mfcc : MfccFun) (hlaw : CenteredShapeLaw mfcc)
    (samples : List ℤ) :
    (process_audio mfcc samples).length = 1 + samples.length / 512 := by
  obtain ⟨h1, -⟩ := lawful_transpose_shape mfcc hlaw
    (samples.map normalizeSample) SAMPLE_RATE 2048 512
  show (npTranspose (mfcc (samples.map normalizeSample) SAMPLE_RATE 13 2048 512)).length = _
  rw [h1, List.length_map]

/-- Claim C5, counterexample: the claim says every chunk fed to the (live)
feature extractor — short, exact or long — yields a FeatureMatrix of the same
shape as a full-length chunk; on the code, `process_audio` performs no
pad/truncate, so a 512-sample chunk yields 2 time steps while a full
22050-sample chunk yields 44 (evaluated at a concrete MFCC transform with the
training-time centered framing). -/
theorem C5_counterexample :
    (process_audio mfccStub (List.replicate 512 (0 : ℤ))).length = 2 ∧
      (process_audio mfccStub (List.replicate 22050 (0 : ℤ))).length = 44 ∧
      (2 : ℕ) ≠ 44 := by
  refine ⟨?_, ?_, by norm_num⟩
  · rw [process_audio_length mfccStub mfccStub_lawful, List.length_replicate]
  · rw [process_audio_length mfccStub mfccStub_lawful, List.length_replicate]

/-- Claim C5, amended: the pad/truncate enforcement lives only in the
training-time `extract_features`: there, a chunk shorter than the expected
22050 samples is zero-padded at the end to that count, a longer one is
truncated to it, and every chunk yields the constant 44 × 13 shape; the live
`process_audio` applies the spectral transform with no pad/truncate, so its
frame count is `1 + ⌊len/512⌋`, a function of the input length — a
512-sample chunk yields 2 time steps where a full-length chunk yields 44. -/
theorem C5_pad_enforced_only_in_training :
    (∀ audio : List ℚ, audio.length < 22050 →
        padTrim audio 1 22050 = audio ++ List.replicate (22050 - audio.length) 0 ∧
          (padTrim audio 1 22050).length = 22050) ∧
      (∀ audio : List ℚ, 22050 ≤ audio.length →
        padTrim audio 1 22050 = audio.take 22050 ∧
          (padTrim audio 1 22050).length = 22050) ∧
      (∀ mfcc : MfccFun, CenteredShapeLaw mfcc → ∀ audio : List ℚ,
        (extract_features mfcc audio 1 22050).length = 44 ∧
          ∀ row ∈ extract_features mfcc audio 1 22050, row.length = 13) ∧
      (∀ mfcc : MfccFun, CenteredShapeLaw mfcc → ∀ samples : List ℤ,
        (process_audio mfcc samples).length = 1 + samples.length / 512) :=
  ⟨fun audio h => ⟨padTrim_short audio h, padTrim_length audio⟩,
    fun audio h => ⟨padTrim_long audio h, padTrim_length audio⟩,
    fun mfcc hlaw audio => extract_features_shape mfcc hlaw audio,
    fun mfcc hlaw samples => process_audio_length mfcc hlaw samples⟩

/-- Claim C5, witness: the amended theorem evaluated at concrete inputs — a
100-sample chunk (short), a 30000-sample chunk (long) and the concrete
centered-framing MFCC transform. -/
theorem C5_pad_witness :
    ((List.replicate 100 (0 : ℚ)).length < 22050 ∧
        (padTrim (List.replicate 100 (0 : ℚ)) 1 22050).length = 22050) ∧
      (22050 ≤ (List.replicate 30000 (0 : ℚ)).length ∧
        padTrim (List.replicate 30000 (0 : ℚ)) 1 22050 =
          (List.replicate 30000 (0 : ℚ)).take 22050) ∧
      (CenteredShapeLaw mfccStub ∧
        (extract_features mfccStub (List.replicate 100 (0 : ℚ)) 1 22050).length = 44) := by
  have hs : (List.replicate 100 (0 : ℚ)).length < 22050 := by
    rw [List.length_replicate]; norm_num
  have hl : 22050 ≤ (List.replicate 30000 (0 : ℚ)).length := by
    rw [List.length_replicate]; norm_num
  exact ⟨⟨hs, (C5_pad_enforced_only_in_training.1 _ hs).2⟩,
    ⟨hl, (C5_pad_enforced_only_in_training.2.1 _ hl).1⟩,
    ⟨mfccStub_lawful,
      (C5_pad_enforced_only_in_training.2.2.1 mfccStub mfccStub_lawful _).1⟩⟩

/-- Claim C7: for every MFCC transform with the training-time centered
framing and every chunk of exactly the expected 22050 samples, the live
extractor produces ⌊22050/512⌋ + 1 = 44 time steps of 13 coefficients each —
exactly the shape the training-time `extract_features` produces on every
training clip, i.e. the shape the classifier was trained on. -/
theorem C7_feature_shape (mfcc : MfccFun) (hlaw : CenteredShapeLaw mfcc)
    (samples : List ℤ) (h : samples.length = 22050) :
    (process_audio mfcc samples).length = 22050 / 512 + 1 ∧
      (∀ row ∈ process_audio mfcc samples, row.length = 13) ∧
      (process_audio mfcc samples).length = 44 ∧
      ∀ audio : List ℚ,
        (extract_features mfcc audio 1 22050).length =
            (process_audio mfcc samples).length ∧
          ∀ row ∈ extract_features mfcc audio 1 22050, row.length = 13 := by
  have hlen := process_audio_length mfcc hlaw samples
  have hrows : ∀ row ∈ process_audio mfcc samples, row.length = 13 := by
    obtain ⟨-, h2⟩ := lawful_transpose_shape mfcc hlaw
      (samples.map normalizeSample) SAMPLE_RATE 2048 512
    exact h2
  refine ⟨by rw [hlen, h], hrows, by rw [hlen, h], fun audio => ?_⟩
  obtain ⟨e1, e2⟩ := extract_features_shape mfcc hlaw audio
  exact ⟨by rw [e1, hlen, h], e2⟩

/-- Claim C7, witness: the shape theorem evaluated at the concrete
centered-framing MFCC transform and a concrete 22050-sample chunk. -/
theorem C7_witness :
    CenteredShapeLaw mfccStub ∧
      (List.replicate 22050 (0 : ℤ)).length = 22050 ∧
      (process_audio mfccStub (List.replicate 22050 (0 : ℤ))).length = 44 :=
  ⟨mfccStub_lawful, by rw [List.length_replicate],
    (C7_feature_shape mfccStub mfccStub_lawful (List.replicate 22050 (0 : ℤ))
      (by rw [List.length_replicate])).2.2.1⟩

/-- The error a shape-checked inference call can raise. -/
inductive PredictError
  | shapeMismatch
deriving DecidableEq

/-- Modelled from the spec (§4.3): the loaded classifier artifact behind
`model.predict` (`Live-detection.py` line 45) — the Keras implementation is
not under `src/`, only its caller is. The handle records the input
dimensions the model expects (time steps × coefficients, fixed at training
time) and the forward pass as a function. -/
structure ClassifierHandle where
  expectedRows : ℕ
  expectedCols : ℕ
  forward : List (List ℚ) → List ℚ

/-- Modelled from the spec (§4.3 `predict`): check the feature matrix's
dimensions against those the model expects and fail with
`ShapeMismatchError` when they differ; otherwise run the forward pass and
return the probability vector. -/
def predict (h : ClassifierHandle) (featureMatrix : List (List ℚ)) :
    Except PredictError (List ℚ) :=
  if featureMatrix.length = h.expectedRows ∧
      ∀ row ∈ featureMatrix, row.length = h.expectedCols then
    Except.ok (h.forward featureMatrix)
  else
    Except.error PredictError.shapeMismatch

/-- Claim C3: for every feature matrix whose dimensions differ from those the
model expects (wrong time-step count, or some row of the wrong coefficient
width), `predict` fails with `ShapeMismatchError` by the explicit dimension
check, and never returns a probability vector for such an input. -/
theorem C3_shape_mismatch (h : ClassifierHandle) (featureMatrix : List (List ℚ))
    (hbad : ¬(featureMatrix.length = h.expectedRows ∧
      ∀ row ∈ featureMatrix, row.length = h.expectedCols)) :
    predict h featureMatrix = Except.error PredictError.shapeMismatch ∧
      ∀ probs : List ℚ, predict h featureMatrix ≠ Except.ok probs := by
  unfold predict
  rw [if_neg hbad]
  exact ⟨rfl, fun probs hc => by cases hc⟩

/-- Claim C3, witness: a model expecting 44 × 13 features rejects a matrix of
44 rows of width 12 (wrong coefficient width). -/
theorem C3_witness :
    ¬((List.replicate 44 (List.replicate 12 (0 : ℚ))).length =
        (ClassifierHandle.mk 44 13 (fun _ => [1/2, 1/2])).expectedRows ∧
      ∀ row ∈ List.replicate 44 (List.replicate 12 (0 : ℚ)),
        row.length = (ClassifierHandle.mk 44 13 (fun _ => [1/2, 1/2])).expectedCols) ∧
      predict (ClassifierHandle.mk 44 13 (fun _ => [1/2, 1/2]))
          (List.replicate 44 (List.replicate 12 (0 : ℚ))) =
        Except.error PredictError.shapeMismatch := by
  have hbad : ¬((List.replicate 44 (List.replicate 12 (0 : ℚ))).length =
      (ClassifierHandle.mk 44 13 (fun _ => [1/2, 1/2])).expectedRows ∧
    ∀ row ∈ List.replicate 44 (List.replicate 12 (0 : ℚ)),
      row.length = (ClassifierHandle.mk 44 13 (fun _ => [1/2, 1/2])).expectedCols) := by
    rintro ⟨-, hrows⟩
    have := hrows (List.replicate 12 (0 : ℚ)) (List.mem_replicate.mpr ⟨by norm_num, rfl⟩)
    rw [List.length_replicate] at this
    norm_num at this
  exact ⟨hbad,
    (C3_shape_mismatch (ClassifierHandle.mk 44 13 (fun _ => [1/2, 1/2]))
      (List.replicate 44 (List.replicate 12 (0 : ℚ))) hbad).1⟩

/-- The trained network of `model.py` lines 40-60 around its `Dropout` layer:
the layers before `Dropout(0.3)` (Reshape, Conv2D, MaxPooling2D, Conv2D,
MaxPooling2D, Flatten, Dense(32)) are deterministic maps bundled as
`front`; the final `Dense(softmax)` is `outputLayer`. -/
structure BellModel where
  front : List (List ℚ) → List ℚ
  outputLayer : List ℚ → List ℚ

/-- Modelled from the spec (§4.3 determinism): the Keras `Dropout(rate)`
layer. In training mode it zeroes the units selected by the random `mask`
and rescales the rest by `1/(1 - rate)`; in inference mode it is the
identity — `model.predict` runs the network with `training=False`. -/
def dropoutLayer (rate : ℚ) (training : Bool) (mask : ℕ → Bool)
    (x : List ℚ) : List ℚ :=
  if training then
    (List.range x.length).map
      (fun i => if mask i then 0 else x.getD i 0 / (1 - rate))
  else x

/-- The forward pass of the trained model on one feature matrix, in the given
mode, with `mask` the dropout randomness drawn for this call. -/
def modelForward (m : BellModel) (training : Bool) (mask : ℕ → Bool)
    (featureMatrix : List (List ℚ)) : List ℚ :=
  m.outputLayer (dropoutLayer (3/10) training mask (m.front featureMatrix))

/-- `model.predict(input_data, verbose=0)` of `Live-detection.py` line 45:
inference mode, so the dropout randomness `mask` is drawn but unused. -/
def model_predict (m : BellModel) (mask : ℕ → Bool)
    (featureMatrix : List (List ℚ)) : List ℚ :=
  modelForward m false mask featureMatrix

/-- Claim C8: `predict` is deterministic — two calls on the same loaded model
and the same feature matrix return identical probability vectors whatever
dropout randomness is drawn for each call, because the `Dropout(0.3)` layer
of the trained architecture is the identity at inference time. -/
theorem C8_predict_deterministic :
    (∀ (m : BellModel) (featureMatrix : List (List ℚ)) (mask₁ mask₂ : ℕ → Bool),
        model_predict m mask₁ featureMatrix = model_predict m mask₂ featureMatrix) ∧
      ∀ (mask : ℕ → Bool) (x : List ℚ), dropoutLayer (3/10) false mask x = x :=
  ⟨fun _ _ _ _ => rfl, fun _ _ => rfl⟩

/-- Modelled from the spec (§4.1 `readChunk`): `stream.read(n)` on the
`paInt16`, mono stream opened at `Live-detection.py` lines 30-34 — PyAudio is
external library code — blocks until `n` frames are available and returns
exactly `n` frames as raw bytes, 2 bytes per frame (one 16-bit mono sample),
taken here from the device's byte sequence starting at `pos`. -/
def stream_read (device : ℕ → ℕ) (pos n : ℕ) : List ℕ :=
  (List.range (2 * n)).map (fun i => device (pos + i) % 256)

/-- Reinterpret an unsigned 16-bit value as a signed (two's complement)
16-bit integer. -/
def toInt16 (u : ℕ) : ℤ :=
  if u % 65536 < 32768 then (u % 65536 : ℤ) else (u % 65536 : ℤ) - 65536

/-- `np.frombuffer(raw_data, dtype=np.int16)` of `Live-detection.py` line 41:
consecutive byte pairs, little-endian, become signed 16-bit samples. -/
def np_frombuffer_int16 : List ℕ → List ℤ
  | b0 :: b1 :: rest => toInt16 (b0 % 256 + 256 * (b1 % 256)) :: np_frombuffer_int16 rest
  | _ => []

theorem np_frombuffer_int16_length :
    ∀ bytes : List ℕ, (np_frombuffer_int16 bytes).length = bytes.length / 2
  | [] => by simp [np_frombuffer_int16]
  | [_] => by simp [np_frombuffer_int16]
  | _ :: _ :: rest => by
      rw [np_frombuffer_int16, List.length_cons,
        np_frombuffer_int16_length rest]
      simp
      omega

theorem toInt16_range (u : ℕ) : -32768 ≤ toInt16 u ∧ toInt16 u < 32768 := by
  unfold toInt16
  have h : u % 65536 < 65536 := Nat.mod_lt u (by norm_num)
  split_ifs with hlt
  · constructor
    · have h0 : (0 : ℤ) ≤ ((u % 65536 : ℕ) : ℤ) := Int.natCast_nonneg _
      omega
    · exact_mod_cast hlt
  · push_neg at hlt
    constructor
    · have : (32768 : ℕ) ≤ u % 65536 := hlt
      have hc : (32768 : ℤ) ≤ (u % 65536 : ℕ) := by exact_mod_cast this
      omega
    · have hc : ((u % 65536 : ℕ) : ℤ) < 65536 := by exact_mod_cast h
      omega

theorem np_frombuffer_int16_mem :
    ∀ (bytes : List ℕ), ∀ s ∈ np_frombuffer_int16 bytes, -32768 ≤ s ∧ s < 32768
  | [], s, hs => by cases hs
  | [_], s, hs => by cases hs
  | b0 :: b1 :: rest, s, hs => by
      rw [np_frombuffer_int16, List.mem_cons] at hs
      rcases hs with rfl | hs
      · exact toInt16_range _
      · exact np_frombuffer_int16_mem rest s hs

/-- Claim C9: for every device byte stream and every cycle position, the
chunk delivered by `np.frombuffer(stream.read(SAMPLES_PER_CHUNK), np.int16)`
is a sequence of signed 16-bit samples (each in [-32768, 32768)) of exactly
`SAMPLES_PER_CHUNK = int(22050 × 1.0) = 22050` samples, and this length is
the same at every cycle for the life of the stream. -/
theorem C9_chunk_length (device : ℕ → ℕ) (pos : ℕ) :
    (np_frombuffer_int16 (stream_read device pos SAMPLES_PER_CHUNK)).length =
        SAMPLES_PER_CHUNK ∧
      SAMPLES_PER_CHUNK = 22050 ∧
      (∀ s ∈ np_frombuffer_int16 (stream_read device pos SAMPLES_PER_CHUNK),
        -32768 ≤ s ∧ s < 32768) ∧
      ∀ (device₂ : ℕ → ℕ) (pos₂ : ℕ),
        (np_frombuffer_int16 (stream_read device pos SAMPLES_PER_CHUNK)).length =
          (np_frombuffer_int16 (stream_read device₂ pos₂ SAMPLES_PER_CHUNK)).length := by
  have hlen : ∀ (d : ℕ → ℕ) (p : ℕ),
      (np_frombuffer_int16 (stream_read d p SAMPLES_PER_CHUNK)).length =
        SAMPLES_PER_CHUNK := by
    intro d p
    rw [np_frombuffer_int16_length, stream_read, List.length_map,
      List.length_range]
    omega
  refine ⟨hlen device pos, ?_, np_frombuffer_int16_mem _, fun d₂ p₂ => ?_⟩
  · unfold SAMPLES_PER_CHUNK SAMPLE_RATE DURATION
    norm_num
    rfl
  · rw [hlen device pos, hlen d₂ p₂]

/-- `UPLOAD_DIR = "uploads"` from `main.py` line 39. -/
def UPLOAD_DIR : String := "uploads"

/-- The request body of `POST /upload-audio/`: the client-supplied filename
and the uploaded bytes (`main.py` line 43). -/
structure UploadFile where
  filename : String
  content : List ℕ

/-- The JSON body returned by `upload_audio` (`main.py` line 49). -/
structure UploadResponse where
  message : String
  filename : String
deriving DecidableEq

/-- `upload_audio` from `main.py` lines 42-49 (the second, effective
definition of the route): build `file_location = f"{UPLOAD_DIR}/{file.filename}"`
with the client-supplied filename used verbatim, open it with mode `"wb"`
(truncating whatever file existed at that path) and write the uploaded
bytes, then return the success JSON. The filesystem is embedded as a map
from paths to file contents. -/
def upload_audio (fs : String → Option (List ℕ)) (file : UploadFile) :
    (String → Option (List ℕ)) × UploadResponse :=
  let file_location := UPLOAD_DIR ++ "/" ++ file.filename
  (fun p => if p = file_location then some file.content else fs p,
    ⟨"Audio file uploaded successfully!", file.filename⟩)

/-- Claim C10: every upload writes the uploaded bytes to the path
`"uploads/" ++ filename` with the client-supplied filename used verbatim —
overwriting whatever the filesystem held at that path, while every other
path is untouched — and the response's filename field equals the
client-supplied filename exactly; in particular a filename containing path
separators, such as `"../secret.txt"`, designates the destination
`"uploads/../secret.txt"` outside the uploads directory. -/
theorem C10_upload_verbatim_path (fs : String → Option (List ℕ)) (file : UploadFile) :
    ((upload_audio fs file).1 (UPLOAD_DIR ++ "/" ++ file.filename) =
        some file.content) ∧
      (upload_audio fs file).2.filename = file.filename ∧
      (∀ p : String, p ≠ UPLOAD_DIR ++ "/" ++ file.filename →
        (upload_audio fs file).1 p = fs p) ∧
      (upload_audio (fun _ => none) (UploadFile.mk "../secret.txt" [7])).1
          "uploads/../secret.txt" = some [7] := by
  refine ⟨?_, rfl, fun p hp => ?_, ?_⟩
  · simp [upload_audio]
  · simp [upload_audio, hp]
  · simp [upload_audio, UPLOAD_DIR]

/-- Claim C10, witness: the theorem evaluated at a concrete filesystem and a
concrete traversal filename, with the untouched-path hypothesis discharged
at the distinct path `"uploads/other.wav"`. -/
theorem C10_witness :
    ((upload_audio (fun _ => none) (UploadFile.mk "../secret.txt" [7])).1
        (UPLOAD_DIR ++ "/" ++ "../secret.txt") = some [7]) ∧
      (upload_audio (fun _ => none) (UploadFile.mk "../secret.txt" [7])).2.filename =
        "../secret.txt" ∧
      ("uploads/other.wav" ≠ UPLOAD_DIR ++ "/" ++ "../secret.txt" ∧
        (upload_audio (fun _ => none) (UploadFile.mk "../secret.txt" [7])).1
          "uploads/other.wav" = none) := by
  have h := C10_upload_verbatim_path (fun _ => none)
    (UploadFile.mk "../secret.txt" [7])
  have hne : "uploads/other.wav" ≠ UPLOAD_DIR ++ "/" ++ "../secret.txt" := by
    decide
  exact ⟨h.1, h.2.1, hne, h.2.2.1 "uploads/other.wav" hne⟩
